import Mathlib

/-
  Verification of the Xcb native window implementation
  (Code/Framework/AzFramework/Platform/Common/Xcb/AzFramework/XcbNativeWindow.cpp).

  The C++ class XcbNativeWindow is shallowly embedded as a pure state-transition
  system.  The mutable members of the class become the fields of `WindowState`.
  Every xcb server request, notification-bus call and printf that a method
  performs is recorded, in program order, in a `List Effect` returned next to
  the updated state.  Inputs that the real code obtains from the X server
  (property replies, intern-atom replies, decoded image bytes, the contents of
  freshly malloc'ed memory) are passed in as explicit parameters.
-/

namespace AzFramework

/-- X atoms are 32-bit server tokens; modelled as `Nat`. -/
abbrev Atom := Nat

/-- `XCB_NONE`, returned by `GetAtom` when the intern-atom round trip fails. -/
def XCB_NONE : Atom := 0

/-- The predefined atom `XCB_ATOM_ATOM` (value 4 in the X protocol). -/
def XCB_ATOM_ATOM : Atom := 4

/-- The predefined atom `XCB_ATOM_CARDINAL` (value 6 in the X protocol). -/
def XCB_ATOM_CARDINAL : Atom := 6

/-- `_NET_WM_STATE_REMOVE` from the EWMH specification (`#define` in the source). -/
def NET_WM_STATE_REMOVE : Nat := 0

/-- `_NET_WM_STATE_ADD` from the EWMH specification (`#define` in the source). -/
def NET_WM_STATE_ADD : Nat := 1

/-- `_NET_WM_STATE_TOGGLE` from the EWMH specification (`#define` in the source). -/
def NET_WM_STATE_TOGGLE : Nat := 2

/-- The five 32-bit data words of an xcb client message (`data.data32[0..4]`). -/
structure ClientMessageData where
  d0 : Nat
  d1 : Nat
  d2 : Nat
  d3 : Nat
  d4 : Nat
deriving DecidableEq, Repr

/-- An `xcb_client_message_event_t` as this code constructs and consumes it:
the message type atom, the destination window, the format and the data words.
(The event-kind byte `response_type` is the tag of `XcbEvent` below.) -/
structure ClientMessageEvent where
  type : Atom
  window : Nat
  format : Nat
  data : ClientMessageData
deriving DecidableEq, Repr

/-- An xcb request issued by the window code, as recorded in the effect trace. -/
inductive Request where
  | internAtom (name : String)
  | getProperty (window : Nat) (property : Atom)
  | changeProperty (window : Nat) (property : Atom) (type : Atom) (format : Nat) (value : List Nat)
  | sendEvent (propagate : Nat) (destination : Nat) (msg : ClientMessageEvent)
  | mapWindow (window : Nat)
  | unmapWindow (window : Nat)
  | createPixmap (width height : Nat)
  | imagePut (data : List Nat)
  | copyArea (srcX srcY dstX dstY width height : Nat)
  | freePixmap
  | flush
deriving DecidableEq, Repr

/-- A call on the `WindowNotificationBus` listener interface. -/
inductive Notification where
  | OnWindowClosed
  | OnWindowResized (width height : Nat)
  | OnResolutionChanged (width height : Nat)
deriving DecidableEq, Repr

/-- One observable step performed by a method, in program order. -/
inductive Effect where
  | req (r : Request)
  | note (n : Notification)
  | exitMainLoop
  | busConnect
  | busDisconnect
  | logPrint (msg : String)
deriving DecidableEq, Repr

/-- The mutable members of `XcbNativeWindow` (window id, root window id,
geometry, the four boolean flags, and the cached atom tokens that the C++
class stores in fields named `_NET_...`/`WM_...`). -/
structure WindowState where
  m_xcbWindow : Nat := 0
  m_rootWindow : Nat := 0
  m_width : Nat := 0
  m_height : Nat := 0
  m_activated : Bool := false
  m_fullscreenState : Bool := false
  m_horizontalyMaximized : Bool := false
  m_verticallyMaximized : Bool := false
  m_enableCustomizedResolution : Bool := false
  NET_ACTIVE_WINDOW : Atom := 0
  NET_WM_BYPASS_COMPOSITOR : Atom := 0
  WM_PROTOCOLS : Atom := 0
  WM_DELETE_WINDOW : Atom := 0
  NET_WM_PING : Atom := 0
  NET_WM_STATE : Atom := 0
  NET_WM_STATE_FULLSCREEN : Atom := 0
  NET_WM_STATE_MAXIMIZED_VERT : Atom := 0
  NET_WM_STATE_MAXIMIZED_HORZ : Atom := 0
  NET_MOVERESIZE_WINDOW : Atom := 0
  NET_REQUEST_FRAME_EXTENTS : Atom := 0
  NET_FRAME_EXTENTS : Atom := 0
  NET_WM_PID : Atom := 0
deriving DecidableEq, Repr

/-- `XcbNativeWindow::WindowSizeChanged`: updates the stored geometry when it
changed; notifications are raised only while activated, and the
resolution-changed notification additionally requires
`m_enableCustomizedResolution` to be off. -/
def WindowSizeChanged (s : WindowState) (width height : Nat) : WindowState × List Effect :=
  if s.m_width ≠ width ∨ s.m_height ≠ height then
    let s1 := { s with m_width := width, m_height := height }
    if s.m_activated then
      (s1,
        [.note (.OnWindowResized width height)] ++
          (if s.m_enableCustomizedResolution then []
           else [.note (.OnResolutionChanged width height)]))
    else (s1, [])
  else (s, [])

/-- `XcbNativeWindow::Deactivate`: when activated, clears the flag, raises the
`OnWindowClosed` notification, unmaps and flushes; always disconnects from the
event-handler bus at the end. -/
def Deactivate (s : WindowState) : WindowState × List Effect :=
  if s.m_activated then
    ({ s with m_activated := false },
      [.note .OnWindowClosed, .req (.unmapWindow s.m_xcbWindow), .req .flush, .busDisconnect])
  else (s, [.busDisconnect])

/-- The inbound events consumed by `XcbNativeWindow::HandleXcbEvent`, after the
`response_type & s_XcbResponseTypeMask` dispatch: a configure-notify with its
reported size, a client message, or any other event kind (ignored). -/
inductive XcbEvent where
  | configureNotify (width height : Nat)
  | clientMessage (cme : ClientMessageEvent)
  | other
deriving DecidableEq, Repr

/-- `XcbNativeWindow::HandleXcbEvent`: dispatches a configure-notify to
`WindowSizeChanged` when the size differs, handles `WM_PROTOCOLS` client
messages of 32-bit format (`WM_DELETE_WINDOW` → `Deactivate` then the
`ExitMainLoop` broadcast; `_NET_WM_PING` not addressed to the root window →
echo the message to the root window with its `window` field rewritten, then
flush), and ignores everything else. -/
def HandleXcbEvent (s : WindowState) (ev : XcbEvent) : WindowState × List Effect :=
  match ev with
  | .configureNotify width height =>
      if width ≠ s.m_width ∨ height ≠ s.m_height then
        WindowSizeChanged s width height
      else (s, [])
  | .clientMessage cme =>
      if cme.type = s.WM_PROTOCOLS ∧ cme.format = 32 then
        if cme.data.d0 = s.WM_DELETE_WINDOW then
          ((Deactivate s).1, (Deactivate s).2 ++ [.exitMainLoop])
        else if cme.data.d0 = s.NET_WM_PING ∧ cme.window ≠ s.m_rootWindow then
          (s, [.req (.sendEvent 0 s.m_rootWindow { cme with window := s.m_rootWindow }),
               .req .flush])
        else (s, [])
      else (s, [])
  | .other => (s, [])

/-- An `xcb_get_property_reply_t` as consumed by `GetWMStates`: the reply
format, the reply type and the atom list stored in the property value.  The
reply pointer being null is modelled by passing `none` for the whole reply. -/
structure GetPropertyReply where
  format : Nat
  type : Atom
  value : List Atom
deriving DecidableEq, Repr

/-- One iteration of the loop in `GetWMStates` over the returned atom list:
the `if`/`else if` chain comparing `states[i]` against the three cached state
atoms and latching the corresponding flag. -/
def applyStateAtom (s : WindowState) (a : Atom) : WindowState :=
  if a = s.NET_WM_STATE_FULLSCREEN then { s with m_fullscreenState := true }
  else if a = s.NET_WM_STATE_MAXIMIZED_HORZ then { s with m_horizontalyMaximized := true }
  else if a = s.NET_WM_STATE_MAXIMIZED_VERT then { s with m_verticallyMaximized := true }
  else s

/-- `XcbNativeWindow::GetWMStates`: queries the `_NET_WM_STATE` property; on a
missing reply, a server error, or a reply whose format is not 32 or whose
type is not `ATOM`, returns leaving the state untouched; otherwise clears the
three state flags and recomputes them from the returned atom list. -/
def GetWMStates (s : WindowState) (reply : Option GetPropertyReply) (err : Bool) :
    WindowState × List Effect :=
  match reply with
  | none => (s, [.req (.getProperty s.m_xcbWindow s.NET_WM_STATE)])
  | some r =>
      if err = true ∨ ¬(r.format = 32 ∧ r.type = XCB_ATOM_ATOM) then
        (s, [.req (.getProperty s.m_xcbWindow s.NET_WM_STATE)])
      else
        (r.value.foldl applyStateAtom
          { s with m_fullscreenState := false, m_horizontalyMaximized := false,
                   m_verticallyMaximized := false },
         [.req (.getProperty s.m_xcbWindow s.NET_WM_STATE)])

/-- `XcbNativeWindow::SetFullScreenState`: refreshes the flags via
`GetWMStates`, sends the EWMH `_NET_WM_STATE` client message adding or
removing the fullscreen atom, writes the compositor-bypass hint from the
refreshed `m_fullscreenState`, and when leaving fullscreen with either
maximize flag set sends a further client message whose data words are the two
maximize atoms followed by zeros; finally flushes and stores the requested
fullscreen flag. -/
def SetFullScreenState (s : WindowState) (reply : Option GetPropertyReply) (err : Bool)
    (fullScreenState : Bool) : WindowState × List Effect :=
  let s1 := (GetWMStates s reply err).1
  let eff0 := (GetWMStates s reply err).2
  let msg1 : ClientMessageEvent :=
    { type := s1.NET_WM_STATE, window := s1.m_xcbWindow, format := 32,
      data := { d0 := if fullScreenState then NET_WM_STATE_ADD else NET_WM_STATE_REMOVE,
                d1 := s1.NET_WM_STATE_FULLSCREEN, d2 := 0, d3 := 1, d4 := 0 } }
  let hint : Nat := if s1.m_fullscreenState then 1 else 0
  let eff1 := eff0 ++
    [.req (.sendEvent 1 s1.m_rootWindow msg1),
     .req (.changeProperty s1.m_xcbWindow s1.NET_WM_BYPASS_COMPOSITOR XCB_ATOM_CARDINAL 32 [hint])]
  let eff2 := eff1 ++
    (if fullScreenState = false then
       (if s1.m_horizontalyMaximized || s1.m_verticallyMaximized then
          [.logPrint "Remove maximized state.",
           .req (.sendEvent 1 s1.m_rootWindow
             { type := s1.NET_WM_STATE, window := s1.m_xcbWindow, format := 32,
               data := { d0 := s1.NET_WM_STATE_MAXIMIZED_VERT,
                         d1 := s1.NET_WM_STATE_MAXIMIZED_HORZ,
                         d2 := 0, d3 := 0, d4 := 0 } })]
        else [])
     else [])
  ({ s1 with m_fullscreenState := fullScreenState }, eff2 ++ [.req .flush])

/-- Keeps only xcb server requests from an effect trace. -/
def isRequest : Effect → Bool
  | .req _ => true
  | _ => false

/-- Keeps only `changeProperty` requests from an effect trace. -/
def isChangeProperty : Effect → Bool
  | .req (.changeProperty _ _ _ _ _) => true
  | _ => false

/-- The client messages sent by a trace, in order. -/
def sentMessages (l : List Effect) : List ClientMessageEvent :=
  l.filterMap fun e =>
    match e with
    | .req (.sendEvent _ _ msg) => some msg
    | _ => none

/-- A concrete window state used to evaluate `SetFullScreenState`: window id 7,
root window 1, distinct atom tokens for the cached atoms. -/
def fsTestState : WindowState :=
  { m_xcbWindow := 7, m_rootWindow := 1, m_width := 800, m_height := 600,
    m_activated := true, m_fullscreenState := true,
    NET_WM_BYPASS_COMPOSITOR := 104, WM_PROTOCOLS := 105, WM_DELETE_WINDOW := 106,
    NET_WM_PING := 107, NET_WM_STATE := 100, NET_WM_STATE_FULLSCREEN := 101,
    NET_WM_STATE_MAXIMIZED_VERT := 102, NET_WM_STATE_MAXIMIZED_HORZ := 103 }

/-- A concrete `_NET_WM_STATE` property reply reporting the window fullscreen
and horizontally maximized: format 32, type `ATOM`, atom list containing the
fullscreen atom and the maximized-horizontal atom of `fsTestState`. -/
def fsTestReply : GetPropertyReply :=
  { format := 32, type := XCB_ATOM_ATOM, value := [101, 103] }

/-- The X server's intern-atom table: a fixed mapping from names to tokens
(`none` models a failed round trip — no reply).  Interning is deterministic:
the same name always maps to the same token. -/
structure XcbServer where
  internAtomOf : String → Option Atom

/-- `XcbNativeWindow::GetAtom`: always performs an intern-atom round trip for
the given name; returns the interned token, or `XCB_NONE` when the round trip
fails. -/
def GetAtom (srv : XcbServer) (atomName : String) : Atom × List Effect :=
  match srv.internAtomOf atomName with
  | none => (XCB_NONE, [.req (.internAtom atomName)])
  | some a => (a, [.req (.internAtom atomName)])

/-- Two consecutive resolutions of the same atom name through `GetAtom`:
the pair of returned tokens and the combined request trace. -/
def resolveTwice (srv : XcbServer) (atomName : String) : (Atom × Atom) × List Effect :=
  (((GetAtom srv atomName).1, (GetAtom srv atomName).1),
   (GetAtom srv atomName).2 ++ (GetAtom srv atomName).2)

/-- The thirteen atom names resolved by `InitializeAtoms`, in program order. -/
def atomNames : List String :=
  ["_NET_ACTIVE_WINDOW", "_NET_WM_BYPASS_COMPOSITOR", "WM_PROTOCOLS", "WM_DELETE_WINDOW",
   "_NET_WM_PING", "_NET_WM_STATE", "_NET_WM_STATE_FULLSCREEN", "_NET_WM_STATE_MAXIMIZED_VERT",
   "_NET_WM_STATE_MAXIMIZED_HORZ", "_NET_MOVERESIZE_WINDOW", "_NET_REQUEST_FRAME_EXTENTS",
   "_NET_FRAME_EXTENTS", "_NET_WM_PID"]

/-- `XcbNativeWindow::InitializeAtoms`: resolves each needed atom name exactly
once through `GetAtom`, stores the tokens in the corresponding fields, and in
the middle writes the `WM_PROTOCOLS` property (delete-window and ping) and
flushes. -/
def InitializeAtoms (s : WindowState) (srv : XcbServer) : WindowState × List Effect :=
  let s1 := { s with
    NET_ACTIVE_WINDOW := (GetAtom srv "_NET_ACTIVE_WINDOW").1,
    NET_WM_BYPASS_COMPOSITOR := (GetAtom srv "_NET_WM_BYPASS_COMPOSITOR").1,
    WM_PROTOCOLS := (GetAtom srv "WM_PROTOCOLS").1,
    WM_DELETE_WINDOW := (GetAtom srv "WM_DELETE_WINDOW").1,
    NET_WM_PING := (GetAtom srv "_NET_WM_PING").1,
    NET_WM_STATE := (GetAtom srv "_NET_WM_STATE").1,
    NET_WM_STATE_FULLSCREEN := (GetAtom srv "_NET_WM_STATE_FULLSCREEN").1,
    NET_WM_STATE_MAXIMIZED_VERT := (GetAtom srv "_NET_WM_STATE_MAXIMIZED_VERT").1,
    NET_WM_STATE_MAXIMIZED_HORZ := (GetAtom srv "_NET_WM_STATE_MAXIMIZED_HORZ").1,
    NET_MOVERESIZE_WINDOW := (GetAtom srv "_NET_MOVERESIZE_WINDOW").1,
    NET_REQUEST_FRAME_EXTENTS := (GetAtom srv "_NET_REQUEST_FRAME_EXTENTS").1,
    NET_FRAME_EXTENTS := (GetAtom srv "_NET_FRAME_EXTENTS").1,
    NET_WM_PID := (GetAtom srv "_NET_WM_PID").1 }
  (s1,
    (GetAtom srv "_NET_ACTIVE_WINDOW").2 ++
    (GetAtom srv "_NET_WM_BYPASS_COMPOSITOR").2 ++
    (GetAtom srv "WM_PROTOCOLS").2 ++
    (GetAtom srv "WM_DELETE_WINDOW").2 ++
    (GetAtom srv "_NET_WM_PING").2 ++
    [.req (.changeProperty s.m_xcbWindow s1.WM_PROTOCOLS XCB_ATOM_ATOM 32
        [s1.WM_DELETE_WINDOW, s1.NET_WM_PING]),
     .req .flush] ++
    (GetAtom srv "_NET_WM_STATE").2 ++
    (GetAtom srv "_NET_WM_STATE_FULLSCREEN").2 ++
    (GetAtom srv "_NET_WM_STATE_MAXIMIZED_VERT").2 ++
    (GetAtom srv "_NET_WM_STATE_MAXIMIZED_HORZ").2 ++
    (GetAtom srv "_NET_MOVERESIZE_WINDOW").2 ++
    (GetAtom srv "_NET_REQUEST_FRAME_EXTENTS").2 ++
    (GetAtom srv "_NET_FRAME_EXTENTS").2 ++
    (GetAtom srv "_NET_WM_PID").2)

/-- Keeps only intern-atom requests from an effect trace. -/
def isInternRequest : Effect → Bool
  | .req (.internAtom _) => true
  | _ => false

/-- A concrete server whose intern table answers every name with token 5;
used to evaluate `GetAtom` and `resolveTwice` on concrete inputs. -/
def constServer : XcbServer := { internAtomOf := fun _ => some 5 }

/-- One iteration of the pixel loop in `DrawSplash` for pixel `e = (y, x)`:
writes bytes 0..2 at offset `(x + y*width)*4` of the buffer with the source
pixel's bytes 2, 1, 0 (the R/B swap); every other offset — in particular
byte 3, the alpha byte — keeps the buffer's previous content. -/
def writePixel (width : Nat) (rows : Nat → Nat → Nat) (buf : Nat → Nat) (e : Nat × Nat) :
    Nat → Nat :=
  fun off =>
    if off = (e.2 + e.1 * width) * 4 then rows e.1 (e.2 * 4 + 2)
    else if off = (e.2 + e.1 * width) * 4 + 1 then rows e.1 (e.2 * 4 + 1)
    else if off = (e.2 + e.1 * width) * 4 + 2 then rows e.1 (e.2 * 4)
    else buf off

/-- The pixels `(y, x)` visited by the nested loops of `DrawSplash`, in
program order (outer loop over rows, inner loop over columns). -/
def pixelList (width height : Nat) : List (Nat × Nat) :=
  (List.range height).flatMap fun y => (List.range width).map fun x => (y, x)

/-- The byte buffer composed by the pixel loops of `DrawSplash`: starting
from the contents of the freshly malloc'ed buffer (`initial`), writes the
three colour bytes of every pixel.  `rows y i` is byte `i` of decoded PNG
row `y` (`row_pointers[y][i]`). -/
def composeRaster (width height : Nat) (rows : Nat → Nat → Nat) (initial : Nat → Nat) :
    Nat → Nat :=
  (pixelList width height).foldl (writePixel width rows) initial

/-- Pixel `e` writes buffer offset `off` (one of its three colour bytes). -/
def writesTo (width : Nat) (e : Nat × Nat) (off : Nat) : Prop :=
  off = (e.2 + e.1 * width) * 4 ∨
  off = (e.2 + e.1 * width) * 4 + 1 ∨
  off = (e.2 + e.1 * width) * 4 + 2

/-- The two configuration strings `DrawSplash` reads from the settings
registry: `/O3DE/xcb/SplashScreenImagePath` and
`/O3DE/Runtime/FilePaths/CacheProjectRootFolder`, each possibly absent. -/
structure SplashSettings where
  splashScreenImagePath : Option String
  assetCachePath : Option String

/-- The decoded splash PNG: its size and its row bytes
(`rows y i` = `row_pointers[y][i]`). -/
structure SplashImage where
  width : Nat
  height : Nat
  rows : Nat → Nat → Nat

/-- The environment `DrawSplash` interacts with: the settings registry (which
itself may be absent), whether `fopen` succeeds, the decoded image, whether
`xcb_create_pixmap_checked` reports an error, the contents of the freshly
malloc'ed raster buffer, and the first exposure event's rectangle. -/
structure SplashEnv where
  settingsRegistry : Option SplashSettings
  fileOpens : Bool
  image : SplashImage
  pixmapError : Option Nat
  mallocBytes : Nat → Nat
  exposeEvent : Nat × Nat × Nat × Nat

/-- The splash image path as the settings-registry lookup resolves it. -/
def splashPathOf (env : SplashEnv) : Option String :=
  env.settingsRegistry.bind fun r => r.splashScreenImagePath

/-- The asset cache path as the settings-registry lookup resolves it. -/
def cachePathOf (env : SplashEnv) : Option String :=
  env.settingsRegistry.bind fun r => r.assetCachePath

/-- The centring expression `(m_width - width) / 2` of the copy-area call,
evaluated in C unsigned 32-bit arithmetic. -/
def centerOffset (outer inner : Nat) : Nat :=
  ((outer + 4294967296 - inner % 4294967296) % 4294967296) / 2

/-- `XcbNativeWindow::DrawSplash`: returns logging only when either settings
string is absent or the file fails to open (no server request in those
paths); otherwise composes the raster, creates a pixmap (returning after a
logged error if that fails), puts the image, flushes, waits for the first
exposure event, copies the centred area, flushes and frees the pixmap. -/
def DrawSplash (s : WindowState) (env : SplashEnv) : List Effect :=
  match splashPathOf env with
  | none => [.logPrint "SplashScreenImagePath not found"]
  | some _ =>
    match cachePathOf env with
    | none => [.logPrint "Failed to grab cache folder"]
    | some _ =>
      if env.fileOpens = false then [.logPrint "Failed to open image"]
      else
        [.req (.createPixmap env.image.width env.image.height)] ++
        match env.pixmapError with
        | some _ => [.logPrint "Error in xcb_create_pixmap"]
        | none =>
          [.req (.imagePut ((List.range (env.image.height * (env.image.width * 4))).map
              (composeRaster env.image.width env.image.height env.image.rows env.mallocBytes))),
           .req .flush,
           .req (.copyArea env.exposeEvent.1 env.exposeEvent.2.1
              (centerOffset s.m_width env.image.width)
              (centerOffset s.m_height env.image.height)
              env.exposeEvent.2.2.1 env.exposeEvent.2.2.2),
           .req .flush, .req .freePixmap]

/-- `XcbNativeWindow::Activate`: connects to the event-handler bus; when not
yet activated, maps the window, flushes, runs `DrawSplash` and sets the
activated flag. -/
def Activate (s : WindowState) (env : SplashEnv) : WindowState × List Effect :=
  if s.m_activated then (s, [.busConnect])
  else
    ({ s with m_activated := true },
     [.busConnect, .req (.mapWindow s.m_xcbWindow), .req .flush] ++ DrawSplash s env)

/-- A concrete splash environment whose settings registry lacks the splash
image path; used to evaluate `Activate` and `DrawSplash`. -/
def noSplashEnv : SplashEnv :=
  { settingsRegistry := some { splashScreenImagePath := none, assetCachePath := some "cache" },
    fileOpens := true,
    image := { width := 0, height := 0, rows := fun _ _ => 0 },
    pixmapError := none,
    mallocBytes := fun _ => 0,
    exposeEvent := (0, 0, 0, 0) }

/-- Keeps only listener notifications and the exit-requested broadcast. -/
def isObservable : Effect → Bool
  | .note _ => true
  | .exitMainLoop => true
  | _ => false

/-- C4: a `WindowSizeChanged(w, h)` call with `(w, h)` different from the
stored geometry while the window is not activated updates the stored width and
height to `(w, h)` but emits no resize and no resolution-changed notification
(indeed no effect at all). -/
theorem windowSizeChanged_deactivated (s : WindowState) (w h : Nat)
    (hne : s.m_width ≠ w ∨ s.m_height ≠ h) (hact : s.m_activated = false) :
    WindowSizeChanged s w h = ({ s with m_width := w, m_height := h }, []) := by
  unfold WindowSizeChanged
  rw [if_pos hne, hact]
  simp

/-- Witness for C4 at a concrete state and size. -/
theorem windowSizeChanged_deactivated_witness :
    WindowSizeChanged { m_width := 800, m_height := 600 } 1024 768
      = ({ m_width := 1024, m_height := 768 }, []) :=
  windowSizeChanged_deactivated { m_width := 800, m_height := 600 } 1024 768
    (Or.inl (by decide)) rfl

/-- C5: a `WindowSizeChanged(w, h)` call where `w` and `h` equal the stored
width and height emits no notification and leaves the entire window state
unchanged. -/
theorem windowSizeChanged_noop (s : WindowState) (w h : Nat)
    (hw : w = s.m_width) (hh : h = s.m_height) :
    WindowSizeChanged s w h = (s, []) := by
  unfold WindowSizeChanged
  rw [if_neg]
  push_neg
  exact ⟨hw.symm, hh.symm⟩

/-- Witness for C5 at a concrete state. -/
theorem windowSizeChanged_noop_witness :
    WindowSizeChanged { m_width := 800, m_height := 600, m_activated := true } 800 600
      = ({ m_width := 800, m_height := 600, m_activated := true }, []) :=
  windowSizeChanged_noop { m_width := 800, m_height := 600, m_activated := true } 800 600
    rfl rfl

/-- C2: a `WM_PROTOCOLS` client message of 32-bit format carrying the
`WM_DELETE_WINDOW` protocol atom, received while the window is activated,
makes `HandleXcbEvent` emit exactly one closed notification followed by
exactly one exit-requested broadcast, in that order, and leaves the activated
flag false. -/
theorem handleXcbEvent_delete (s : WindowState) (cme : ClientMessageEvent)
    (hact : s.m_activated = true)
    (hty : cme.type = s.WM_PROTOCOLS) (hfmt : cme.format = 32)
    (hdel : cme.data.d0 = s.WM_DELETE_WINDOW) :
    (HandleXcbEvent s (.clientMessage cme)).2.filter isObservable
        = [.note .OnWindowClosed, .exitMainLoop] ∧
    (HandleXcbEvent s (.clientMessage cme)).1.m_activated = false := by
  simp only [HandleXcbEvent, Deactivate]
  rw [if_pos ⟨hty, hfmt⟩, if_pos hdel, if_pos hact]
  simp [isObservable]

/-- Witness for C2 at a concrete state and message. -/
theorem handleXcbEvent_delete_witness :
    (HandleXcbEvent
        { m_activated := true, WM_PROTOCOLS := 105, WM_DELETE_WINDOW := 106 }
        (.clientMessage
          { type := 105, window := 7, format := 32,
            data := { d0 := 106, d1 := 0, d2 := 0, d3 := 0, d4 := 0 } })).2.filter isObservable
        = [.note .OnWindowClosed, .exitMainLoop] ∧
    (HandleXcbEvent
        { m_activated := true, WM_PROTOCOLS := 105, WM_DELETE_WINDOW := 106 }
        (.clientMessage
          { type := 105, window := 7, format := 32,
            data := { d0 := 106, d1 := 0, d2 := 0, d3 := 0, d4 := 0 } })).1.m_activated = false :=
  handleXcbEvent_delete
    { m_activated := true, WM_PROTOCOLS := 105, WM_DELETE_WINDOW := 106 }
    { type := 105, window := 7, format := 32,
      data := { d0 := 106, d1 := 0, d2 := 0, d3 := 0, d4 := 0 } }
    rfl rfl rfl rfl

/-- C3: a `WM_PROTOCOLS` client message of 32-bit format carrying the
`_NET_WM_PING` protocol atom whose window field differs from the root window
makes `HandleXcbEvent` send exactly one echoed copy of the message to the root
window with its window field rewritten to the root window id (then a flush),
leaving the state unchanged; when the message is addressed to the root window,
no reply is sent and the state is also unchanged.  The hypothesis that the
cached ping and delete-window atoms differ reflects that the two distinct
names intern to distinct tokens. -/
theorem handleXcbEvent_ping (s : WindowState) (cme : ClientMessageEvent)
    (hty : cme.type = s.WM_PROTOCOLS) (hfmt : cme.format = 32)
    (hping : cme.data.d0 = s.NET_WM_PING)
    (hpd : s.NET_WM_PING ≠ s.WM_DELETE_WINDOW) :
    (cme.window ≠ s.m_rootWindow →
      HandleXcbEvent s (.clientMessage cme)
        = (s, [.req (.sendEvent 0 s.m_rootWindow { cme with window := s.m_rootWindow }),
               .req .flush])) ∧
    (cme.window = s.m_rootWindow →
      HandleXcbEvent s (.clientMessage cme) = (s, [])) := by
  constructor
  · intro hw
    simp only [HandleXcbEvent]
    rw [if_pos ⟨hty, hfmt⟩, if_neg (by rw [hping]; exact hpd), if_pos ⟨hping, hw⟩]
  · intro hw
    simp only [HandleXcbEvent]
    rw [if_pos ⟨hty, hfmt⟩, if_neg (by rw [hping]; exact hpd),
        if_neg (by intro h; exact h.2 hw)]

/-- Witness for C3 at a concrete state and message (non-root addressed). -/
theorem handleXcbEvent_ping_witness :
    ((7 : Nat) ≠ 1 →
      HandleXcbEvent
        { m_rootWindow := 1, WM_PROTOCOLS := 105, WM_DELETE_WINDOW := 106, NET_WM_PING := 107 }
        (.clientMessage
          { type := 105, window := 7, format := 32,
            data := { d0 := 107, d1 := 20, d2 := 30, d3 := 0, d4 := 0 } })
        = ({ m_rootWindow := 1, WM_PROTOCOLS := 105, WM_DELETE_WINDOW := 106, NET_WM_PING := 107 },
           [.req (.sendEvent 0 1
              { type := 105, window := 1, format := 32,
                data := { d0 := 107, d1 := 20, d2 := 30, d3 := 0, d4 := 0 } }),
            .req .flush])) ∧
    ((7 : Nat) = 1 →
      HandleXcbEvent
        { m_rootWindow := 1, WM_PROTOCOLS := 105, WM_DELETE_WINDOW := 106, NET_WM_PING := 107 }
        (.clientMessage
          { type := 105, window := 7, format := 32,
            data := { d0 := 107, d1 := 20, d2 := 30, d3 := 0, d4 := 0 } })
        = ({ m_rootWindow := 1, WM_PROTOCOLS := 105, WM_DELETE_WINDOW := 106, NET_WM_PING := 107 },
           [])) :=
  handleXcbEvent_ping
    { m_rootWindow := 1, WM_PROTOCOLS := 105, WM_DELETE_WINDOW := 106, NET_WM_PING := 107 }
    { type := 105, window := 7, format := 32,
      data := { d0 := 107, d1 := 20, d2 := 30, d3 := 0, d4 := 0 } }
    rfl rfl rfl (by decide)

theorem applyStateAtom_preserves (s : WindowState) (a : Atom) :
    (applyStateAtom s a).m_xcbWindow = s.m_xcbWindow ∧
    (applyStateAtom s a).NET_WM_BYPASS_COMPOSITOR = s.NET_WM_BYPASS_COMPOSITOR := by
  unfold applyStateAtom
  split_ifs <;> exact ⟨rfl, rfl⟩

theorem foldl_applyStateAtom_preserves (l : List Atom) :
    ∀ s : WindowState,
      (l.foldl applyStateAtom s).m_xcbWindow = s.m_xcbWindow ∧
      (l.foldl applyStateAtom s).NET_WM_BYPASS_COMPOSITOR = s.NET_WM_BYPASS_COMPOSITOR := by
  induction l with
  | nil => intro s; exact ⟨rfl, rfl⟩
  | cons a l ih =>
    intro s
    rw [List.foldl_cons]
    obtain ⟨h1, h2⟩ := ih (applyStateAtom s a)
    obtain ⟨g1, g2⟩ := applyStateAtom_preserves s a
    exact ⟨h1.trans g1, h2.trans g2⟩

theorem getWMStates_preserves (s : WindowState) (reply : Option GetPropertyReply) (err : Bool) :
    (GetWMStates s reply err).1.m_xcbWindow = s.m_xcbWindow ∧
    (GetWMStates s reply err).1.NET_WM_BYPASS_COMPOSITOR = s.NET_WM_BYPASS_COMPOSITOR := by
  cases reply with
  | none => exact ⟨rfl, rfl⟩
  | some r =>
    simp only [GetWMStates]
    by_cases h : err = true ∨ ¬(r.format = 32 ∧ r.type = XCB_ATOM_ATOM)
    · rw [if_pos h]; exact ⟨rfl, rfl⟩
    · rw [if_neg h]; exact foldl_applyStateAtom_preserves r.value _

theorem getWMStates_trace (s : WindowState) (reply : Option GetPropertyReply) (err : Bool) :
    (GetWMStates s reply err).2 = [.req (.getProperty s.m_xcbWindow s.NET_WM_STATE)] := by
  cases reply with
  | none => rfl
  | some r =>
    simp only [GetWMStates]
    by_cases h : err = true ∨ ¬(r.format = 32 ∧ r.type = XCB_ATOM_ATOM)
    · rw [if_pos h]
    · rw [if_neg h]

theorem foldl_apply_fullscreen (l : List Atom) :
    ∀ s : WindowState,
      (l.foldl applyStateAtom s).m_fullscreenState
        = (s.m_fullscreenState || decide (s.NET_WM_STATE_FULLSCREEN ∈ l)) := by
  induction l with
  | nil => intro s; simp
  | cons a l ih =>
    intro s
    rw [List.foldl_cons, ih (applyStateAtom s a)]
    unfold applyStateAtom
    by_cases h1 : a = s.NET_WM_STATE_FULLSCREEN
    · rw [if_pos h1]
      simp [List.mem_cons, h1]
    · rw [if_neg h1]
      have hne : s.NET_WM_STATE_FULLSCREEN ≠ a := fun h => h1 h.symm
      by_cases h2 : a = s.NET_WM_STATE_MAXIMIZED_HORZ
      · rw [if_pos h2]; simp [List.mem_cons, hne]
      · rw [if_neg h2]
        by_cases h3 : a = s.NET_WM_STATE_MAXIMIZED_VERT
        · rw [if_pos h3]; simp [List.mem_cons, hne]
        · rw [if_neg h3]; simp [List.mem_cons, hne]

theorem foldl_apply_horz (l : List Atom) :
    ∀ s : WindowState,
      s.NET_WM_STATE_FULLSCREEN ≠ s.NET_WM_STATE_MAXIMIZED_HORZ →
      (l.foldl applyStateAtom s).m_horizontalyMaximized
        = (s.m_horizontalyMaximized || decide (s.NET_WM_STATE_MAXIMIZED_HORZ ∈ l)) := by
  induction l with
  | nil => intro s _; simp
  | cons a l ih =>
    intro s hd
    rw [List.foldl_cons, ih (applyStateAtom s a)]
    · unfold applyStateAtom
      by_cases h1 : a = s.NET_WM_STATE_FULLSCREEN
      · rw [if_pos h1]
        have hne : s.NET_WM_STATE_MAXIMIZED_HORZ ≠ a := fun h => hd (h.trans h1).symm
        simp [List.mem_cons, hne]
      · rw [if_neg h1]
        by_cases h2 : a = s.NET_WM_STATE_MAXIMIZED_HORZ
        · rw [if_pos h2]; simp [List.mem_cons, h2]
        · rw [if_neg h2]
          have hne : s.NET_WM_STATE_MAXIMIZED_HORZ ≠ a := fun h => h2 h.symm
          by_cases h3 : a = s.NET_WM_STATE_MAXIMIZED_VERT
          · rw [if_pos h3]; simp [List.mem_cons, hne]
          · rw [if_neg h3]; simp [List.mem_cons, hne]
    · unfold applyStateAtom
      split_ifs <;> exact hd

theorem foldl_apply_vert (l : List Atom) :
    ∀ s : WindowState,
      s.NET_WM_STATE_FULLSCREEN ≠ s.NET_WM_STATE_MAXIMIZED_VERT →
      s.NET_WM_STATE_MAXIMIZED_HORZ ≠ s.NET_WM_STATE_MAXIMIZED_VERT →
      (l.foldl applyStateAtom s).m_verticallyMaximized
        = (s.m_verticallyMaximized || decide (s.NET_WM_STATE_MAXIMIZED_VERT ∈ l)) := by
  induction l with
  | nil => intro s _ _; simp
  | cons a l ih =>
    intro s hd1 hd2
    rw [List.foldl_cons, ih (applyStateAtom s a)]
    · unfold applyStateAtom
      by_cases h1 : a = s.NET_WM_STATE_FULLSCREEN
      · rw [if_pos h1]
        have hne : s.NET_WM_STATE_MAXIMIZED_VERT ≠ a := fun h => hd1 (h.trans h1).symm
        simp [List.mem_cons, hne]
      · rw [if_neg h1]
        by_cases h2 : a = s.NET_WM_STATE_MAXIMIZED_HORZ
        · rw [if_pos h2]
          have hne : s.NET_WM_STATE_MAXIMIZED_VERT ≠ a := fun h => hd2 (h.trans h2).symm
          simp [List.mem_cons, hne]
        · rw [if_neg h2]
          by_cases h3 : a = s.NET_WM_STATE_MAXIMIZED_VERT
          · rw [if_pos h3]; simp [List.mem_cons, h3]
          · rw [if_neg h3]
            have hne : s.NET_WM_STATE_MAXIMIZED_VERT ≠ a := fun h => h3 h.symm
            simp [List.mem_cons, hne]
    · unfold applyStateAtom
      split_ifs <;> exact hd1
    · unfold applyStateAtom
      split_ifs <;> exact hd2

/-- C6: when the `_NET_WM_STATE` query fails (no reply, a server error, or a
reply of wrong format or type) `GetWMStates` leaves the whole state — in
particular the three flags — exactly as before the call; when it succeeds,
each of the three flags ends up true if and only if its atom appears in the
returned atom list.  The distinctness hypotheses reflect that the three
cached atoms come from interning three distinct names. -/
theorem getWMStates_flags (s : WindowState) (reply : Option GetPropertyReply) (err : Bool)
    (h1 : s.NET_WM_STATE_FULLSCREEN ≠ s.NET_WM_STATE_MAXIMIZED_HORZ)
    (h2 : s.NET_WM_STATE_FULLSCREEN ≠ s.NET_WM_STATE_MAXIMIZED_VERT)
    (h3 : s.NET_WM_STATE_MAXIMIZED_HORZ ≠ s.NET_WM_STATE_MAXIMIZED_VERT) :
    ((reply = none ∨ err = true ∨
        (∀ r, reply = some r → ¬(r.format = 32 ∧ r.type = XCB_ATOM_ATOM))) →
      (GetWMStates s reply err).1 = s) ∧
    (∀ r, reply = some r → err = false → r.format = 32 → r.type = XCB_ATOM_ATOM →
      (((GetWMStates s reply err).1.m_fullscreenState = true ↔
          s.NET_WM_STATE_FULLSCREEN ∈ r.value) ∧
       ((GetWMStates s reply err).1.m_horizontalyMaximized = true ↔
          s.NET_WM_STATE_MAXIMIZED_HORZ ∈ r.value) ∧
       ((GetWMStates s reply err).1.m_verticallyMaximized = true ↔
          s.NET_WM_STATE_MAXIMIZED_VERT ∈ r.value))) := by
  constructor
  · intro hfail
    cases reply with
    | none => rfl
    | some r =>
      simp only [GetWMStates]
      rcases hfail with h | h | h
      · exact absurd h (by simp)
      · rw [if_pos (Or.inl h)]
      · rw [if_pos (Or.inr (h r rfl))]
  · intro r hr herr hfmt hty
    subst hr
    simp only [GetWMStates]
    have hcond : ¬(err = true ∨ ¬(r.format = 32 ∧ r.type = XCB_ATOM_ATOM)) := by
      rw [herr, hfmt, hty]
      simp
    rw [if_neg hcond]
    refine ⟨?_, ?_, ?_⟩
    · rw [foldl_apply_fullscreen r.value]
      simp
    · have hh := foldl_apply_horz r.value
        { s with m_fullscreenState := false, m_horizontalyMaximized := false,
                 m_verticallyMaximized := false } h1
      rw [hh]
      simp
    · have hv := foldl_apply_vert r.value
        { s with m_fullscreenState := false, m_horizontalyMaximized := false,
                 m_verticallyMaximized := false } h2 h3
      rw [hv]
      simp

/-- Witness for C6 at a concrete state and reply: with distinct cached atoms
101/103/102 and a successful reply listing 101 and 103, the conclusion of
`getWMStates_flags` holds (in particular fullscreen and maximized-horizontal
become true and maximized-vertical false). -/
theorem getWMStates_flags_witness :
    (((some fsTestReply : Option GetPropertyReply) = none ∨ (false = true) ∨
        (∀ r, (some fsTestReply : Option GetPropertyReply) = some r →
          ¬(r.format = 32 ∧ r.type = XCB_ATOM_ATOM))) →
      (GetWMStates fsTestState (some fsTestReply) false).1 = fsTestState) ∧
    (∀ r, (some fsTestReply : Option GetPropertyReply) = some r → false = false →
        r.format = 32 → r.type = XCB_ATOM_ATOM →
      (((GetWMStates fsTestState (some fsTestReply) false).1.m_fullscreenState = true ↔
          fsTestState.NET_WM_STATE_FULLSCREEN ∈ r.value) ∧
       ((GetWMStates fsTestState (some fsTestReply) false).1.m_horizontalyMaximized = true ↔
          fsTestState.NET_WM_STATE_MAXIMIZED_HORZ ∈ r.value) ∧
       ((GetWMStates fsTestState (some fsTestReply) false).1.m_verticallyMaximized = true ↔
          fsTestState.NET_WM_STATE_MAXIMIZED_VERT ∈ r.value))) :=
  getWMStates_flags fsTestState (some fsTestReply) false
    (by decide) (by decide) (by decide)

/-- C10: the compositor-bypass hint written by `SetFullScreenState` is the
unique `changeProperty` request of the call, its value word is 1 exactly when
the fullscreen flag as refreshed by the initial `GetWMStates` is true — it
does not depend on the requested target — and the stored fullscreen flag
equals the target only at the end of the call. -/
theorem setFullScreenState_bypass_hint (s : WindowState) (reply : Option GetPropertyReply)
    (err : Bool) (target : Bool) :
    ((SetFullScreenState s reply err target).2.filter isChangeProperty
      = [.req (.changeProperty s.m_xcbWindow s.NET_WM_BYPASS_COMPOSITOR XCB_ATOM_CARDINAL 32
          [if (GetWMStates s reply err).1.m_fullscreenState then 1 else 0])]) ∧
    (SetFullScreenState s reply err target).1.m_fullscreenState = target := by
  obtain ⟨hwin, hbyp⟩ := getWMStates_preserves s reply err
  constructor
  · unfold SetFullScreenState
    rw [List.filter_append, List.filter_append, List.filter_append, getWMStates_trace]
    rw [hwin, hbyp]
    split_ifs <;> simp [isChangeProperty]
  · unfold SetFullScreenState
    rfl

/-- C1 (evaluation of the code at the failing input): calling
`SetFullScreenState(false)` when the refreshed state reports the window
horizontally maximized sends exactly two client messages; the second — the
maximize-removal message — has data words
`[MAXIMIZED_VERT, MAXIMIZED_HORZ, 0, 0, 0]`, so its first word is the
maximized-vertical atom (102 here) and not the EWMH action word
`_NET_WM_STATE_REMOVE` (0) that the claim and the EWMH convention require. -/
theorem setFullScreenState_maximize_message_layout :
    sentMessages (SetFullScreenState fsTestState (some fsTestReply) false false).2
      = [{ type := 100, window := 7, format := 32,
           data := { d0 := NET_WM_STATE_REMOVE, d1 := 101, d2 := 0, d3 := 1, d4 := 0 } },
         { type := 100, window := 7, format := 32,
           data := { d0 := 102, d1 := 103, d2 := 0, d3 := 0, d4 := 0 } }] ∧
    fsTestState.NET_WM_STATE_MAXIMIZED_VERT ≠ NET_WM_STATE_REMOVE := by
  decide

theorem getAtom_trace (srv : XcbServer) (atomName : String) :
    (GetAtom srv atomName).2 = [.req (.internAtom atomName)] := by
  unfold GetAtom
  cases srv.internAtomOf atomName <;> rfl

/-- C8 counterexample: resolving the same atom name a second time through
`GetAtom` does issue a second intern-atom round trip — the trace of two
consecutive resolutions of "WM_PROTOCOLS" against a concrete server holds two
intern-atom requests, refuting the claim's "issues no second round-trip
request to the server". -/
theorem resolveTwice_two_roundtrips :
    (resolveTwice constServer "WM_PROTOCOLS").2
      = [.req (.internAtom "WM_PROTOCOLS"), .req (.internAtom "WM_PROTOCOLS")] ∧
    (GetAtom constServer "WM_PROTOCOLS").2 ≠ [] := by
  exact ⟨rfl, by decide⟩

/-- C8 amended: resolving the same name a second time yields the same token,
but each resolution is its own intern-atom round trip; the code instead
resolves each of its thirteen distinct atom names exactly once, during
`InitializeAtoms`, and caches the tokens in fields, so no name is ever
resolved twice. -/
theorem atom_resolution_amended (srv : XcbServer) (s : WindowState) (atomName : String) :
    (resolveTwice srv atomName).1.1 = (resolveTwice srv atomName).1.2 ∧
    (resolveTwice srv atomName).2
      = [.req (.internAtom atomName), .req (.internAtom atomName)] ∧
    (InitializeAtoms s srv).2.filter isInternRequest
      = atomNames.map (fun n => .req (.internAtom n)) ∧
    atomNames.Nodup := by
  refine ⟨rfl, ?_, ?_, by decide⟩
  · unfold resolveTwice
    rw [getAtom_trace]
    rfl
  · unfold InitializeAtoms
    simp only [getAtom_trace, List.filter_append, List.filter_cons, List.filter_nil]
    simp [isInternRequest, atomNames]

/-- C7: when either splash configuration string is absent from the settings,
`DrawSplash` issues no server request at all, and `Activate` on a
not-yet-activated window still maps the window (and flushes) and sets the
activated flag to true. -/
theorem activate_missing_splash (s : WindowState) (env : SplashEnv)
    (hact : s.m_activated = false)
    (hmiss : splashPathOf env = none ∨ cachePathOf env = none) :
    (DrawSplash s env).filter isRequest = [] ∧
    (Activate s env).1.m_activated = true ∧
    (Activate s env).2.filter isRequest
      = [.req (.mapWindow s.m_xcbWindow), .req .flush] := by
  have hds : (DrawSplash s env).filter isRequest = [] := by
    unfold DrawSplash
    rcases hmiss with h | h
    · rw [h]
      rfl
    · cases hsp : splashPathOf env with
      | none => rfl
      | some p =>
        rw [h]
        rfl
  refine ⟨hds, ?_, ?_⟩
  · unfold Activate
    rw [hact]
    rfl
  · unfold Activate
    rw [hact]
    show List.filter isRequest
      ([.busConnect, .req (.mapWindow s.m_xcbWindow), .req .flush] ++ DrawSplash s env) = _
    rw [List.filter_append, hds]
    rfl

/-- Witness for C7 at a concrete state and environment (splash image path
absent from the settings registry). -/
theorem activate_missing_splash_witness :
    (DrawSplash { m_xcbWindow := 7 } noSplashEnv).filter isRequest = [] ∧
    (Activate { m_xcbWindow := 7 } noSplashEnv).1.m_activated = true ∧
    (Activate { m_xcbWindow := 7 } noSplashEnv).2.filter isRequest
      = [.req (.mapWindow 7), .req .flush] :=
  activate_missing_splash { m_xcbWindow := 7 } noSplashEnv rfl (Or.inl rfl)

theorem foldl_writePixel_untouched (width : Nat) (rows : Nat → Nat → Nat) :
    ∀ (L : List (Nat × Nat)) (buf : Nat → Nat) (off : Nat),
      (∀ e ∈ L, ¬ writesTo width e off) →
      (L.foldl (writePixel width rows) buf) off = buf off := by
  intro L
  induction L with
  | nil => intro buf off _; rfl
  | cons e L ih =>
    intro buf off h
    have he : ¬ writesTo width e off := h e (List.mem_cons_self e L)
    have hL : ∀ x ∈ L, ¬ writesTo width x off := fun x hx => h x (List.mem_cons_of_mem e hx)
    rw [List.foldl_cons, ih _ _ hL]
    unfold writesTo at he
    push_neg at he
    unfold writePixel
    rw [if_neg he.1, if_neg he.2.1, if_neg he.2.2]

theorem writesTo_unique (width x y c : Nat) (hx : x < width) (hc : c < 3)
    (e : Nat × Nat) (he : e.2 < width)
    (hw : writesTo width e ((x + y * width) * 4 + c)) : e = (y, x) := by
  obtain ⟨y1, x1⟩ := e
  simp only at he
  have hwpos : 0 < width := Nat.lt_of_le_of_lt (Nat.zero_le x) hx
  have hsum : x1 + y1 * width = x + y * width := by
    unfold writesTo at hw
    simp only at hw
    rcases hw with h | h | h <;> omega
  have hx1 : x1 = x := by
    have e1 : (x1 + y1 * width) % width = x1 := by
      rw [Nat.add_mul_mod_self_right, Nat.mod_eq_of_lt he]
    have e2 : (x + y * width) % width = x := by
      rw [Nat.add_mul_mod_self_right, Nat.mod_eq_of_lt hx]
    rw [hsum, e2] at e1
    exact e1.symm
  have hy1 : y1 = y := by
    have e1 : (x1 + y1 * width) / width = y1 := by
      rw [Nat.add_mul_div_right _ _ hwpos, Nat.div_eq_of_lt he, Nat.zero_add]
    have e2 : (x + y * width) / width = y := by
      rw [Nat.add_mul_div_right _ _ hwpos, Nat.div_eq_of_lt hx, Nat.zero_add]
    rw [hsum, e2] at e1
    exact e1.symm
  rw [hx1, hy1]

theorem foldl_writePixel_value (width : Nat) (rows : Nat → Nat → Nat) (y x c : Nat)
    (hx : x < width) (hc : c < 3) :
    ∀ (L : List (Nat × Nat)) (buf : Nat → Nat),
      (y, x) ∈ L →
      (∀ e ∈ L, e.2 < width) →
      (L.foldl (writePixel width rows) buf) ((x + y * width) * 4 + c)
        = rows y (x * 4 + (2 - c)) := by
  intro L
  induction L with
  | nil => intro buf hmem _; cases hmem
  | cons e L ih =>
    intro buf hmem hbound
    by_cases hin : (y, x) ∈ L
    · rw [List.foldl_cons]
      exact ih _ hin (fun e1 he1 => hbound e1 (List.mem_cons_of_mem e he1))
    · have he : e = (y, x) := by
        rcases List.mem_cons.mp hmem with h | h
        · exact h.symm
        · exact absurd h hin
      subst he
      rw [List.foldl_cons, foldl_writePixel_untouched width rows L _ _ ?nowrite]
      case nowrite =>
        intro e1 he1 hw
        have hb : e1.2 < width := hbound e1 (List.mem_cons_of_mem _ he1)
        have : e1 = (y, x) := writesTo_unique width x y c hx hc e1 hb hw
        exact hin (this ▸ he1)
      unfold writePixel
      show (if (x + y * width) * 4 + c = (x + y * width) * 4 then rows y (x * 4 + 2)
        else if (x + y * width) * 4 + c = (x + y * width) * 4 + 1 then rows y (x * 4 + 1)
        else if (x + y * width) * 4 + c = (x + y * width) * 4 + 2 then rows y (x * 4)
        else buf ((x + y * width) * 4 + c)) = rows y (x * 4 + (2 - c))
      split_ifs with hA hB hC
      · have hc0 : c = 0 := by omega
        subst hc0
        rfl
      · have hc1 : c = 1 := by omega
        subst hc1
        rfl
      · have hc2 : c = 2 := by omega
        subst hc2
        rfl
      · omega

theorem mem_pixelList (width height y x : Nat) :
    (y, x) ∈ pixelList width height ↔ y < height ∧ x < width := by
  unfold pixelList
  simp [List.mem_flatMap, List.mem_map, List.mem_range, Prod.ext_iff, eq_comm]

theorem pixelList_bound (width height : Nat) :
    ∀ e ∈ pixelList width height, e.2 < width := by
  intro e he
  obtain ⟨y, x⟩ := e
  exact ((mem_pixelList width height y x).mp he).2

theorem not_writesTo_alpha (width x y : Nat) (e : Nat × Nat) :
    ¬ writesTo width e ((x + y * width) * 4 + 3) := by
  obtain ⟨y1, x1⟩ := e
  unfold writesTo
  simp only
  push_neg
  refine ⟨?_, ?_, ?_⟩ <;> omega

/-- C9 counterexample: the alpha byte of the composed raster is whatever the
malloc'ed buffer held, not zero — for a concrete 1×1 decoded image and a
buffer whose bytes are all 7, byte 3 of the composed raster is 7 ≠ 0,
refuting the claim's "alpha byte (byte 3) equal to zero". -/
theorem composeRaster_alpha_not_zero :
    composeRaster 1 1 (fun _ _ => 9) (fun _ => 7) 3 = 7 ∧
    composeRaster 1 1 (fun _ _ => 9) (fun _ => 7) 3 ≠ 0 := by
  exact ⟨rfl, by decide⟩

/-- C9 amended: for every pixel `(x, y)` of the decoded image, the composed
raster stores at offset `(x + y*width)*4` the source pixel's channels with R
and B swapped (byte 0 = source byte 2, byte 1 = source byte 1, byte 2 =
source byte 0), while byte 3 — the alpha byte — is left unwritten and keeps
the malloc'ed buffer's previous (unspecified) content. -/
theorem composeRaster_pixel (width height x y : Nat) (rows : Nat → Nat → Nat)
    (initial : Nat → Nat) (hx : x < width) (hy : y < height) :
    composeRaster width height rows initial ((x + y * width) * 4) = rows y (x * 4 + 2) ∧
    composeRaster width height rows initial ((x + y * width) * 4 + 1) = rows y (x * 4 + 1) ∧
    composeRaster width height rows initial ((x + y * width) * 4 + 2) = rows y (x * 4) ∧
    composeRaster width height rows initial ((x + y * width) * 4 + 3)
      = initial ((x + y * width) * 4 + 3) := by
  have hmem : (y, x) ∈ pixelList width height := (mem_pixelList width height y x).mpr ⟨hy, hx⟩
  have hbound := pixelList_bound width height
  unfold composeRaster
  refine ⟨?_, ?_, ?_, ?_⟩
  · have h := foldl_writePixel_value width rows y x 0 hx (by omega)
      (pixelList width height) initial hmem hbound
    simpa using h
  · exact foldl_writePixel_value width rows y x 1 hx (by omega)
      (pixelList width height) initial hmem hbound
  · have h := foldl_writePixel_value width rows y x 2 hx (by omega)
      (pixelList width height) initial hmem hbound
    simpa using h
  · exact foldl_writePixel_untouched width rows (pixelList width height) initial _
      (fun e _ => not_writesTo_alpha width x y e)

/-- Witness for C9 (amended) at a concrete 2×2 image. -/
theorem composeRaster_pixel_witness :
    composeRaster 2 2 (fun y i => y * 10 + i) (fun _ => 7) ((1 + 1 * 2) * 4)
        = (fun y i => y * 10 + i) 1 (1 * 4 + 2) ∧
    composeRaster 2 2 (fun y i => y * 10 + i) (fun _ => 7) ((1 + 1 * 2) * 4 + 1)
        = (fun y i => y * 10 + i) 1 (1 * 4 + 1) ∧
    composeRaster 2 2 (fun y i => y * 10 + i) (fun _ => 7) ((1 + 1 * 2) * 4 + 2)
        = (fun y i => y * 10 + i) 1 (1 * 4) ∧
    composeRaster 2 2 (fun y i => y * 10 + i) (fun _ => 7) ((1 + 1 * 2) * 4 + 3)
        = (fun _ : Nat => (7 : Nat)) ((1 + 1 * 2) * 4 + 3) :=
  composeRaster_pixel 2 2 1 1 (fun y i => y * 10 + i) (fun _ => 7)
    (by decide) (by decide)

end AzFramework
